import Mathlib

/-
Verification of the greeting library (crates/pkg-a/src/lib.rs) and the
application entry point (crates/pkg-b/src/main.rs).

The library holds a process-wide lazily-initialized string GREETING with
value "Hello"; greet(name) formats "{GREETING}, {name}!"; greet_either
accepts a borrowed or owned string and delegates to greet.  The binary
holds a lazily-initialized APP_NAME with value "pkg-b" and prints the
single line "[{APP_NAME}] {greeting}" for greet("Nix"), then exits 0.

Lazy statics are embedded twice: as their (unique) initialized value, and
as an explicit state-passing model (an Option String cell forced on each
access) used for the claims about initialization and hidden state.
-/

/-- Value produced by the initializer of the lazy static GREETING in
crates/pkg-a/src/lib.rs: the string literal "Hello". -/
def GREETING : String := "Hello"

/-- greet from crates/pkg-a/src/lib.rs: format!("{}, {name}!", *GREETING). -/
def greet (name : String) : String := GREETING ++ ", " ++ name ++ "!"

/-- The sum type either::Either with a borrowed string on the left and an
owned string on the right; both payloads are plain strings in the model. -/
inductive REither : Type where
  | left (s : String) : REither
  | right (s : String) : REither
deriving DecidableEq, Repr

/-- greet_either from crates/pkg-a/src/lib.rs: match on the variant and
delegate the contained string to greet. -/
def greet_either (name : REither) : String :=
  match name with
  | REither.left s => greet s
  | REither.right s => greet s

/-- Value produced by the initializer of the lazy static APP_NAME in
crates/pkg-b/src/main.rs: the string literal "pkg-b". -/
def APP_NAME : String := "pkg-b"

/-- State-passing model of forcing a once_cell Lazy cell: st is the cell
(none when not yet initialized), f the initializer closure; returns the
forced value and the cell afterwards. -/
def lazyForce (st : Option String) (f : Unit → String) : String × Option String :=
  match st with
  | some v => (v, some v)
  | none => let v := f (); (v, some v)

/-- Initializer closure of the GREETING lazy cell. -/
def greetingInit : Unit → String := fun _ => "Hello"

/-- Initializer closure of the APP_NAME lazy cell. -/
def appNameInit : Unit → String := fun _ => "pkg-b"

/-- greet with the GREETING lazy cell passed explicitly: forces the cell,
then formats, returning the output together with the cell afterwards. -/
def greetS (st : Option String) (name : String) : String × Option String :=
  let p := lazyForce st greetingInit
  (p.1 ++ ", " ++ name ++ "!", p.2)

/-- States the GREETING cell can be in during a run: untouched, or holding
the value its own initializer produces. -/
def GreetingReachable (st : Option String) : Prop :=
  st = none ∨ st = some "Hello"

/-- States the APP_NAME cell can be in during a run. -/
def AppNameReachable (st : Option String) : Prop :=
  st = none ∨ st = some "pkg-b"

/-- main from crates/pkg-b/src/main.rs, run in a fresh process (both lazy
cells uninitialized): println!("[{}] {}", *APP_NAME, greet("Nix")).  The
result is the list of lines written to standard output paired with the
process exit code (0: main returns unit and no panic is reachable). -/
def main_run : List String × Nat :=
  let a := lazyForce none appNameInit
  let g := greetS none "Nix"
  (["[" ++ a.1 ++ "] " ++ g.1], 0)

/-- Characterization of greet used by several proofs below. -/
theorem greet_eq (s : String) : greet s = "Hello, " ++ s ++ "!" := rfl

/-- Claim C1: for every string s, greet s equals the literal concatenation
"Hello, " ++ s ++ "!"; in particular greet "" equals "Hello, !". -/
theorem greet_concat_spec :
    (∀ s : String, greet s = "Hello, " ++ s ++ "!") ∧ greet "" = "Hello, !" :=
  ⟨fun s => greet_eq s, rfl⟩

/-- Claim C2: running the application entry point writes exactly the single
line "[pkg-b] Hello, Nix!" to standard output, formed as
"[" ++ APP_NAME ++ "] " ++ greet "Nix", and exits with code 0. -/
theorem main_output_spec :
    main_run = (["[pkg-b] Hello, Nix!"], 0) ∧
    main_run.1 = ["[" ++ APP_NAME ++ "] " ++ greet "Nix"] :=
  ⟨rfl, rfl⟩

/-- Claim C3: greet_either on the borrowed-string variant wrapping s equals
greet s, and likewise on the owned-string variant; in particular both hold
for s = "world". -/
theorem greet_either_delegates :
    (∀ s : String,
      greet_either (REither.left s) = greet s ∧
      greet_either (REither.right s) = greet s) ∧
    greet_either (REither.left "world") = greet "world" ∧
    greet_either (REither.right "world") = greet "world" :=
  ⟨fun _ => ⟨rfl, rfl⟩, rfl, rfl⟩

/-- Claim C4: greet is total: for every input string, including the empty
string, it returns a string (of length the input length plus 8) and never
fails; no input is rejected. -/
theorem greet_total :
    ∀ s : String, ∃ r : String, greet s = r ∧ r.length = s.length + 8 := by
  intro s
  refine ⟨greet s, rfl, ?_⟩
  show (((GREETING ++ ", ") ++ s) ++ "!").length = s.length + 8
  simp only [String.length_append]
  have h1 : GREETING.length = 5 := rfl
  have h2 : (", " : String).length = 2 := rfl
  have h3 : ("!" : String).length = 1 := rfl
  omega

/-- Claim C5: greet is deterministic: from any two reachable states of the
GREETING cell (before or after its lazy initialization), greet returns the
same output on the same input, and that output is greet s itself; the call
leaves no state that could change a later call. -/
theorem greet_deterministic (st₁ st₂ : Option String) (s : String)
    (h₁ : GreetingReachable st₁) (h₂ : GreetingReachable st₂) :
    (greetS st₁ s).1 = (greetS st₂ s).1 ∧ (greetS st₁ s).1 = greet s := by
  rcases h₁ with h₁ | h₁ <;> rcases h₂ with h₂ | h₂ <;> subst h₁ <;> subst h₂ <;>
    exact ⟨rfl, rfl⟩

/-- Witness for C5: concrete instance with one call before and one after
initialization of the GREETING cell. -/
theorem greet_deterministic_witness :
    GreetingReachable none ∧ GreetingReachable (some "Hello") ∧
    (greetS none "Nix").1 = (greetS (some "Hello") "Nix").1 ∧
    (greetS none "Nix").1 = greet "Nix" :=
  ⟨Or.inl rfl, Or.inr rfl,
    (greet_deterministic none (some "Hello") "Nix" (Or.inl rfl) (Or.inr rfl)).1,
    (greet_deterministic none (some "Hello") "Nix" (Or.inl rfl) (Or.inr rfl)).2⟩

/-- Claim C6: GREETING equals "Hello" and APP_NAME equals "pkg-b"; forcing
either lazy cell from any reachable state leaves the cell holding exactly
that constant, so the value is initialized once and never mutated by any
later call to greet, greet_either or main. -/
theorem constants_immutable :
    GREETING = "Hello" ∧ APP_NAME = "pkg-b" ∧
    (∀ (st : Option String) (s : String), GreetingReachable st →
      (greetS st s).2 = some GREETING) ∧
    (∀ st : Option String, AppNameReachable st →
      (lazyForce st appNameInit).2 = some APP_NAME) := by
  refine ⟨rfl, rfl, ?_, ?_⟩
  · intro st s h
    rcases h with h | h <;> subst h <;> rfl
  · intro st h
    rcases h with h | h <;> subst h <;> rfl

/-- Witness for C6: concrete instances forcing both cells from the fresh
state and from the initialized state. -/
theorem constants_immutable_witness :
    GreetingReachable none ∧ (greetS none "Nix").2 = some GREETING ∧
    GreetingReachable (some "Hello") ∧ (greetS (some "Hello") "Nix").2 = some GREETING ∧
    AppNameReachable none ∧ (lazyForce none appNameInit).2 = some APP_NAME :=
  ⟨Or.inl rfl, constants_immutable.2.2.1 none "Nix" (Or.inl rfl),
    Or.inr rfl, constants_immutable.2.2.1 (some "Hello") "Nix" (Or.inr rfl),
    Or.inl rfl, constants_immutable.2.2.2 none (Or.inl rfl)⟩

/-- Claim C8: greet is injective: equal outputs force equal inputs. -/
theorem greet_injective :
    ∀ s₁ s₂ : String, greet s₁ = greet s₂ → s₁ = s₂ := by
  intro s₁ s₂ h
  rw [greet_eq s₁, greet_eq s₂] at h
  have hd := congrArg String.data h
  simp only [String.data_append] at hd
  exact String.ext (List.append_cancel_left (List.append_cancel_right hd))

/-- Witness for C8: concrete application discharging the hypothesis. -/
theorem greet_injective_witness :
    greet "Nix" = greet "Nix" ∧ ("Nix" : String) = "Nix" :=
  ⟨rfl, greet_injective "Nix" "Nix" rfl⟩

/-- Claim C9: for every string s, greet s begins with "Hello, ", ends with
"!", and contains s verbatim in between: its character data is exactly the
characters of "Hello, ", then those of s unchanged, then those of "!". -/
theorem greet_shape :
    ∀ s : String,
      "Hello, ".data <+: (greet s).data ∧
      "!".data <:+ (greet s).data ∧
      s.data <:+: (greet s).data ∧
      (greet s).data = "Hello, ".data ++ s.data ++ "!".data := by
  intro s
  have h : (greet s).data = "Hello, ".data ++ (s.data ++ "!".data) := by
    rw [greet_eq s, String.append_assoc]
    simp [String.data_append]
  refine ⟨⟨s.data ++ "!".data, h.symm⟩, ⟨"Hello, ".data ++ s.data, ?_⟩,
    ⟨"Hello, ".data, "!".data, ?_⟩, ?_⟩
  · rw [h]; simp
  · rw [h]; simp
  · rw [h]; simp
